import Mathlib

/-!
Shallow embedding of the hackathon-portal Flask application (`src/app.py`)
and verification of its specification claims.

The relational store (SQLAlchemy models `Team`, `User`, `Submission`,
`Feedback`, `Sponsor`) is embedded as lists of rows plus id counters
(SQLite assigns consecutive ids on insert).  Route handlers become pure
state-transition functions `Store → ... → Store × Outcome`, where the
`Outcome` type records which flash/redirect branch the handler took.
Randomness (`random.choice`) is embedded as an explicit stream of draws
`Nat → Fin 36`, one draw per generated character.
-/

namespace Hackathon

/-- Row of the `Team` model (`app.py` lines 41-53): id, team_name,
invite_code, created_by (never set by any handler, so it stays `none`). -/
structure Team where
  id : Nat
  team_name : String
  invite_code : String
  created_by : Option Nat
deriving Repr, DecidableEq

/-- Row of the `User` model (`app.py` lines 56-67). -/
structure User where
  id : Nat
  name : String
  email : String
  phone : String
  college : String
  password_hash : String
  team_id : Option Nat
deriving Repr, DecidableEq

/-- Row of the `Submission` model (`app.py` lines 70-77). -/
structure Submission where
  id : Nat
  title : String
  description : String
  github : String
  video : String
  user_id : Nat
deriving Repr, DecidableEq

/-- Row of the `Feedback` model (`app.py` lines 80-85). -/
structure Feedback where
  id : Nat
  text : String
  rating : String
  user_id : Nat
deriving Repr, DecidableEq

/-- Row of the `Sponsor` model (`app.py` lines 88-92). -/
structure Sponsor where
  id : Nat
  name : String
  tier : String
  link : String
deriving Repr, DecidableEq

/-- The relational store: one list of rows per table, in insertion order,
plus the next auto-increment id for each table. -/
structure Store where
  teams : List Team
  users : List User
  submissions : List Submission
  feedbacks : List Feedback
  sponsors : List Sponsor
  nextTeamId : Nat
  nextUserId : Nat
  nextSubmissionId : Nat
  nextFeedbackId : Nat
  nextSponsorId : Nat
deriving Repr, DecidableEq

/-- A fresh, empty database. -/
def emptyStore : Store :=
  { teams := [], users := [], submissions := [], feedbacks := [], sponsors := []
    nextTeamId := 1, nextUserId := 1, nextSubmissionId := 1
    nextFeedbackId := 1, nextSponsorId := 1 }

/-- The Flask session (`session` dict): the app only ever stores the keys
`"user_id"` (participant login) and `"is_admin"` (admin flag); a missing
key is modelled as `none` / `false`. -/
structure Session where
  user_id : Option Nat
  is_admin : Bool
deriving Repr, DecidableEq

/-- `chars = string.ascii_uppercase + string.digits` (`app.py` line 110). -/
def inviteCharsStr : String := "ABCDEFGHIJKLMNOPQRSTUVWXYZ0123456789"

/-- The invite-code alphabet as a list of its 36 characters. -/
def inviteChars : List Char := inviteCharsStr.toList

/-- `generate_invite_code` (`app.py` lines 108-111): join 6 characters
drawn by `random.choice(chars)`.  The randomness is an explicit stream
`draws`; the call made on retry attempt `attempt` consumes the six draws
at positions `6*attempt .. 6*attempt+5`. -/
def generate_invite_code (draws : Nat → Fin 36) (attempt : Nat) : String :=
  String.mk ((List.range 6).map fun i => inviteChars.getD (draws (6 * attempt + i)).val 'A')

/-- `Team.query.filter_by(invite_code=code).first()` is truthy
(`app.py` line 205). -/
def codeTaken (teams : List Team) (code : String) : Bool :=
  teams.any fun t => t.invite_code == code

/-- The retry loop of `register` (`app.py` lines 203-206):
`code = generate_invite_code(); while taken: code = generate_invite_code()`.
The Python loop is unbounded; it is embedded with explicit `fuel`, where
`none` means the loop is still running after `fuel` attempts.  The actual
program corresponds to the limit `fuel → ∞`. -/
def genUniqueCode (teams : List Team) (draws : Nat → Fin 36) :
    Nat → Nat → Option String
  | 0, _ => none
  | fuel + 1, attempt =>
    let code := generate_invite_code draws attempt
    if codeTaken teams code then genUniqueCode teams draws fuel (attempt + 1)
    else some code

/-- `werkzeug.generate_password_hash`, treated as an opaque one-way hash
(the spec scopes hashing primitives out as an external collaborator). -/
def generate_password_hash (password : String) : String :=
  "pbkdf2-sha256$" ++ password

/-- The POSTed registration form (`app.py` lines 173-180).  Flask returns
`None` for a missing field; the HTML form always posts every field, and a
blank field arrives as `""`, so fields are plain strings with `""` for
blank (Python `not team_name` is true exactly for the blank string). -/
structure RegForm where
  name : String
  email : String
  phone : String
  college : String
  password : String
  teamChoice : String
  teamName : String
  inviteCode : String
deriving Repr, DecidableEq

/-- Which flash/redirect branch `register` took. -/
inductive RegOutcome where
  /-- "Email already registered. Please login." + redirect to login
  (`app.py` lines 183-185). -/
  | duplicateEmailRedirectLogin
  /-- "Invalid invite code!" + redirect back to register
  (`app.py` lines 216-218). -/
  | invalidInviteRedirectRegister
  /-- "Registration successful. Please login." + redirect to login
  (`app.py` lines 224-225). -/
  | successRedirectLogin
  /-- The invite-code retry loop has not yet terminated within the given
  fuel (the Python loop would still be spinning). -/
  | stillLooping
  /-- `name.split()[0]` raised `IndexError` (blank name with blank team
  name on the create path, `app.py` line 201). -/
  | nameIndexError
deriving Repr, DecidableEq

/-- One step of whitespace tokenisation: a whitespace character starts a
fresh (possibly empty) token group; any other character is prepended to
the current group. -/
def splitWsStep (c : Char) (acc : List (List Char)) : List (List Char) :=
  if c.isWhitespace then [] :: acc
  else
    match acc with
    | [] => [[c]]
    | tok :: toks => (c :: tok) :: toks

/-- Python `str.split()` with no arguments: split on whitespace runs,
dropping empty tokens. -/
def splitTokens (s : String) : List String :=
  ((s.toList.foldr splitWsStep []).filter fun tok => !tok.isEmpty).map
    fun tok => String.mk tok

/-- Lines 199-201 of `app.py`: `if not team_name: team_name =
f"Team-{name.split()[0]}"`.  Returns `none` when `name.split()[0]`
would raise `IndexError`. -/
def resolveTeamName (name teamName : String) : Option String :=
  if teamName == "" then
    match splitTokens name with
    | [] => none
    | tok :: _ => some ("Team-" ++ tok)
  else some teamName

/-- The `User(...)` constructor call of `register` (`app.py` lines
188-195), with the team reference resolved to `tid`; the id is the next
auto-increment id of the user table. -/
def mkRegUser (s : Store) (f : RegForm) (tid : Option Nat) : User :=
  { id := s.nextUserId, name := f.name, email := f.email, phone := f.phone
    college := f.college, password_hash := generate_password_hash f.password
    team_id := tid }

/-- The `team_choice == "create"` branch of `register` (`app.py` lines
198-212): derive the team name, run the invite-code retry loop, insert the
new `Team`, link the new user to it, and commit both rows. -/
def registerCreate (s : Store) (f : RegForm) (draws : Nat → Fin 36) (fuel : Nat) :
    Store × RegOutcome :=
  match resolveTeamName f.name f.teamName with
  | none => (s, RegOutcome.nameIndexError)
  | some tname =>
    match genUniqueCode s.teams draws fuel 0 with
    | none => (s, RegOutcome.stillLooping)
    | some code =>
      let team : Team :=
        { id := s.nextTeamId, team_name := tname, invite_code := code, created_by := none }
      ({ s with teams := s.teams ++ [team]
                users := s.users ++ [mkRegUser s f (some s.nextTeamId)]
                nextTeamId := s.nextTeamId + 1
                nextUserId := s.nextUserId + 1 },
       RegOutcome.successRedirectLogin)

/-- The `team_choice == "join"` branch of `register` (`app.py` lines
214-219): look the team up by invite code; on a miss, flash and redirect
back to the registration form without touching the store. -/
def registerJoin (s : Store) (f : RegForm) : Store × RegOutcome :=
  match s.teams.find? (fun t => t.invite_code == f.inviteCode) with
  | none => (s, RegOutcome.invalidInviteRedirectRegister)
  | some team =>
    ({ s with users := s.users ++ [mkRegUser s f (some team.id)]
              nextUserId := s.nextUserId + 1 },
     RegOutcome.successRedirectLogin)

/-- The POST handler of `/register` (`app.py` lines 172-225): duplicate
email check, then branch on the team choice ("create", "join", or neither,
in which case the user is committed with no team). -/
def register (s : Store) (f : RegForm) (draws : Nat → Fin 36) (fuel : Nat) :
    Store × RegOutcome :=
  if s.users.any (fun u => u.email == f.email) then
    (s, RegOutcome.duplicateEmailRedirectLogin)
  else if f.teamChoice == "create" then
    registerCreate s f draws fuel
  else if f.teamChoice == "join" then
    registerJoin s f
  else
    ({ s with users := s.users ++ [mkRegUser s f none]
              nextUserId := s.nextUserId + 1 },
     RegOutcome.successRedirectLogin)

/-- Every invite code the generator can emit: 6 characters, each drawn
from `{A-Z, 0-9}`. -/
def validCodeB (c : String) : Bool :=
  c.length == 6 && c.toList.all fun ch => inviteChars.contains ch

/-- The invite-code invariant of the claim set: every team's code is a
valid 6-character alphanumeric code, and no two teams share a code. -/
def codesInvariant (teams : List Team) : Prop :=
  (∀ t ∈ teams, validCodeB t.invite_code = true) ∧
    List.Pairwise (fun a b => a.invite_code ≠ b.invite_code) teams

/-- `get_current_user` (`app.py` lines 114-118): resolve the session's
`user_id` to a `User` row, or `none`. -/
def get_current_user (s : Store) (sess : Session) : Option User :=
  match sess.user_id with
  | some uid => s.users.find? fun u => u.id == uid
  | none => none

/-- The in-place field mutation of the SQLAlchemy row object returned by
`.first()` (`app.py` lines 313-316): only the first row matching
`user_id == uid` is updated. -/
def updateFirst (uid : Nat) (title desc github video : String) :
    List Submission → List Submission
  | [] => []
  | sub :: rest =>
    if sub.user_id == uid then
      { sub with title := title, description := desc, github := github, video := video } :: rest
    else sub :: updateFirst uid title desc github video rest

/-- The POST body of `/submit` for the authenticated user `uid`
(`app.py` lines 295-318): insert a new `Submission` when the user has
none, else overwrite all four fields of the existing row in place. -/
def upsertSubmission (s : Store) (uid : Nat) (title desc github video : String) : Store :=
  match s.submissions.find? (fun sub => sub.user_id == uid) with
  | none =>
    { s with
      submissions := s.submissions ++
        [{ id := s.nextSubmissionId, title := title, description := desc
           github := github, video := video, user_id := uid }]
      nextSubmissionId := s.nextSubmissionId + 1 }
  | some _ =>
    { s with submissions := updateFirst uid title desc github video s.submissions }

/-- Which flash/redirect branch the feedback POST took. -/
inductive FeedbackOutcome where
  /-- "Login required to give feedback." + redirect to login
  (`app.py` lines 331-333). -/
  | authRequiredRedirectLogin
  /-- "Thank you for your feedback!" + redirect to feedback
  (`app.py` lines 341-342). -/
  | savedRedirectFeedback
deriving Repr, DecidableEq

/-- The POST body of `/feedback` (`app.py` lines 330-342): `user` is the
result of `get_current_user()`; an unauthenticated POST redirects to
login without writing; otherwise a new `Feedback` row is always appended,
never updated. -/
def addFeedback (s : Store) (user : Option Nat) (text rating : String) :
    Store × FeedbackOutcome :=
  match user with
  | none => (s, FeedbackOutcome.authRequiredRedirectLogin)
  | some uid =>
    ({ s with
       feedbacks := s.feedbacks ++ [{ id := s.nextFeedbackId, text := text
                                      rating := rating, user_id := uid }]
       nextFeedbackId := s.nextFeedbackId + 1 },
     FeedbackOutcome.savedRedirectFeedback)

/-- `N` consecutive authenticated feedback POSTs by user `uid`. -/
def addFeedbackN (s : Store) (uid : Nat) (items : List (String × String)) : Store :=
  items.foldl (fun st it => (addFeedback st (some uid) it.1 it.2).1) s

/-- `ORDER BY Feedback.id DESC`: row `a` sorts before row `b` when its id
is at least as large. -/
def fbNewer (a b : Feedback) : Prop := b.id ≤ a.id

instance : DecidableRel fbNewer := fun a b => Nat.decLe b.id a.id

instance : IsTotal Feedback fbNewer :=
  ⟨fun a b => Nat.le_total b.id a.id⟩

instance : IsTrans Feedback fbNewer :=
  ⟨fun _ _ _ hab hbc => Nat.le_trans hbc hab⟩

/-- The GET listing of `/feedback` for a logged-in user (`app.py` lines
345-348): `Feedback.query.filter_by(user_id=user.id).order_by(Feedback.id.desc()).all()`. -/
def listFeedback (s : Store) (uid : Nat) : List Feedback :=
  List.insertionSort fbNewer (s.feedbacks.filter fun fb => fb.user_id == uid)

/-- The three fixed default sponsors of `seed_sponsors` (`app.py` lines
124-128), with the ids SQLite assigns on insert. -/
def defaultSponsors (startId : Nat) : List Sponsor :=
  [{ id := startId, name := "Alpha Tech Solutions", tier := "Gold", link := "https://example.com" },
   { id := startId + 1, name := "Beta Cloud Services", tier := "Silver", link := "https://example.com" },
   { id := startId + 2, name := "CodeCraft Academy", tier := "Bronze", link := "https://example.com" }]

/-- `seed_sponsors` (`app.py` lines 121-130): insert the three defaults if
`Sponsor.query.count() == 0`, else do nothing. -/
def seed_sponsors (s : Store) : Store :=
  if s.sponsors.length == 0 then
    { s with sponsors := s.sponsors ++ defaultSponsors s.nextSponsorId
             nextSponsorId := s.nextSponsorId + 3 }
  else s

/-- Hard-coded admin credentials (`app.py` lines 385-386). -/
def ADMIN_EMAIL : String := "admin@hackathon.com"

/-- Hard-coded admin password (`app.py` line 386). -/
def ADMIN_PASSWORD : String := "admin123"

/-- Which branch the admin login POST took. -/
inductive AdminLoginOutcome where
  /-- "Admin login successful!" + redirect to admin dashboard. -/
  | redirectDashboard
  /-- "Invalid admin credentials." + re-render the login form. -/
  | invalidCreds
deriving Repr, DecidableEq

/-- The POST handler of `/admin/login` (`app.py` lines 388-397): set
`session["is_admin"] = True` only on an exact credential match. -/
def admin_login (sess : Session) (email password : String) :
    Session × AdminLoginOutcome :=
  if email == ADMIN_EMAIL && password == ADMIN_PASSWORD then
    ({ sess with is_admin := true }, AdminLoginOutcome.redirectDashboard)
  else (sess, AdminLoginOutcome.invalidCreds)

/-- `require_admin` (`app.py` lines 133-138): truthiness of
`session.get("is_admin")`. -/
def require_admin (sess : Session) : Bool := sess.is_admin

/-- What `/admin/dashboard` did with the request. -/
inductive AdminDashboardOutcome where
  /-- The dashboard template was rendered. -/
  | rendered
  /-- Redirect to `/admin/login` (`app.py` lines 411-412). -/
  | redirectAdminLogin
deriving Repr, DecidableEq

/-- The handler of `/admin/dashboard` (`app.py` lines 409-421): redirect
to the admin login view unless `require_admin` passes. -/
def admin_dashboard (sess : Session) : AdminDashboardOutcome :=
  if require_admin sess then AdminDashboardOutcome.rendered
  else AdminDashboardOutcome.redirectAdminLogin

/-- `/admin/logout` (`app.py` lines 402-406): `session.pop("is_admin",
None)` removes only the admin flag; every other session key survives. -/
def admin_logout (sess : Session) : Session :=
  { sess with is_admin := false }

/-- Participant `/logout` (`app.py` lines 250-254): `session.clear()`
empties the whole session, the admin flag included. -/
def logout (_sess : Session) : Session :=
  { user_id := none, is_admin := false }

/-! ### Helper lemmas about invite-code generation -/

/-- Every character the generator can pick is in the alphabet (any index
below 36 hits the alphabet, and the `getD` default `'A'` is in it too). -/
theorem inviteChars_getD_mem (d : Fin 36) :
    inviteChars.contains (inviteChars.getD d.val 'A') = true := by
  revert d
  decide

/-- Every generated code is 6 characters, each from `{A-Z, 0-9}`. -/
theorem generate_invite_code_valid (draws : Nat → Fin 36) (attempt : Nat) :
    validCodeB (generate_invite_code draws attempt) = true := by
  unfold validCodeB generate_invite_code
  apply Bool.and_eq_true_iff.mpr
  constructor
  · simp [String.length]
  · rw [List.all_eq_true]
    intro ch hch
    have : ch ∈ (List.range 6).map
        fun i => inviteChars.getD (draws (6 * attempt + i)).val 'A' := hch
    rw [List.mem_map] at this
    obtain ⟨i, _, hi⟩ := this
    rw [← hi]
    exact inviteChars_getD_mem _

/-- `codeTaken` is false exactly when no stored team carries the code. -/
theorem codeTaken_eq_false_iff (teams : List Team) (c : String) :
    codeTaken teams c = false ↔ ∀ t ∈ teams, t.invite_code ≠ c := by
  unfold codeTaken
  rw [← Bool.not_eq_true, List.any_eq_true]
  constructor
  · intro h t ht hc
    exact h ⟨t, ht, by simp [hc]⟩
  · rintro h ⟨t, ht, hc⟩
    exact h t ht (by simpa using hc)

/-- Whatever the retry loop returns is a fresh, valid code. -/
theorem genUniqueCode_spec (teams : List Team) (draws : Nat → Fin 36) :
    ∀ (fuel attempt : Nat) (c : String),
      genUniqueCode teams draws fuel attempt = some c →
        codeTaken teams c = false ∧ validCodeB c = true := by
  intro fuel
  induction fuel with
  | zero => intro attempt c h; simp [genUniqueCode] at h
  | succ n ih =>
    intro attempt c h
    unfold genUniqueCode at h
    by_cases ht : codeTaken teams (generate_invite_code draws attempt) = true
    · rw [if_pos ht] at h
      exact ih _ _ h
    · rw [if_neg ht] at h
      cases h
      exact ⟨Bool.not_eq_true _ ▸ ht, generate_invite_code_valid draws attempt⟩

/-- Appending a team with a fresh valid code preserves the invariant. -/
theorem codesInvariant_append (teams : List Team) (t : Team)
    (h : codesInvariant teams) (hv : validCodeB t.invite_code = true)
    (hf : codeTaken teams t.invite_code = false) :
    codesInvariant (teams ++ [t]) := by
  obtain ⟨hall, hpair⟩ := h
  constructor
  · intro x hx
    rcases List.mem_append.mp hx with hx | hx
    · exact hall x hx
    · rcases List.mem_singleton.mp hx with rfl
      exact hv
  · rw [List.pairwise_append]
    refine ⟨hpair, List.pairwise_singleton _ _, ?_⟩
    intro a ha b hb
    rcases List.mem_singleton.mp hb with rfl
    exact (codeTaken_eq_false_iff teams _).mp hf a ha

/-- A degenerate random stream: every draw picks index 0, so every
generated code is `"AAAAAA"`. -/
def constDraws : Nat → Fin 36 := fun _ => 0

/-- Sample create-path registration form used by concrete witnesses. -/
def adaForm : RegForm :=
  { name := "Ada Lovelace", email := "ada@x.com", phone := "1234567890"
    college := "X College", password := "pw", teamChoice := "create"
    teamName := "", inviteCode := "" }

/-- Under `constDraws` every attempt generates the same code `"AAAAAA"`. -/
theorem generate_invite_code_constDraws (attempt : Nat) :
    generate_invite_code constDraws attempt = "AAAAAA" := rfl

/-- A store whose single team already holds the code `"AAAAAA"`. -/
def collisionTeam : Team :=
  { id := 1, team_name := "T", invite_code := "AAAAAA", created_by := none }

/-- Against `collisionTeam`, the constant stream collides forever: no
amount of fuel makes the retry loop return. -/
theorem genUniqueCode_collision_none :
    ∀ fuel attempt, genUniqueCode [collisionTeam] constDraws fuel attempt = none := by
  intro fuel
  induction fuel with
  | zero => intro attempt; rfl
  | succ n ih =>
    intro attempt
    unfold genUniqueCode
    rw [generate_invite_code_constDraws]
    rw [if_pos (by decide : codeTaken [collisionTeam] "AAAAAA" = true)]
    exact ih (attempt + 1)

/-- If some attempt `a` draws a code not already taken, the loop
terminates within `a + 1` iterations. -/
theorem genUniqueCode_isSome_of_fresh (teams : List Team) (draws : Nat → Fin 36) :
    ∀ (k start : Nat),
      codeTaken teams (generate_invite_code draws (start + k)) = false →
        (genUniqueCode teams draws (k + 1) start).isSome = true := by
  intro k
  induction k with
  | zero =>
    intro start h
    unfold genUniqueCode
    rw [if_neg (by simpa using h)]
    rfl
  | succ m ih =>
    intro start h
    unfold genUniqueCode
    by_cases ht : codeTaken teams (generate_invite_code draws start) = true
    · rw [if_pos ht]
      exact ih (start + 1)
        (by rw [show start + 1 + m = start + (m + 1) from by omega]; exact h)
    · rw [if_neg ht]
      rfl

/-! ### Claim theorems -/

/-- C1: for every store state whose teams satisfy the invite-code
invariant — every code is exactly 6 characters drawn from `{A-Z,0-9}` and
no two teams share one — the registration handler (in particular its
"create" path, the only operation that creates a `Team`) preserves the
invariant. -/
theorem register_preserves_invite_invariant (s : Store) (f : RegForm)
    (draws : Nat → Fin 36) (fuel : Nat) (h : codesInvariant s.teams) :
    codesInvariant (register s f draws fuel).1.teams := by
  unfold register
  split
  · exact h
  · split
    · unfold registerCreate
      split
      · exact h
      · split
        · exact h
        · rename_i code hcode
          have hspec := genUniqueCode_spec s.teams draws fuel 0 code hcode
          exact codesInvariant_append s.teams _ h hspec.2 hspec.1
    · split
      · unfold registerJoin
        split
        · exact h
        · exact h
      · exact h

/-- C1 witness: the invariant holds after registering `adaForm` against
the empty store. -/
theorem register_preserves_invite_invariant_witness :
    codesInvariant (register emptyStore adaForm constDraws 1).1.teams :=
  register_preserves_invite_invariant emptyStore adaForm constDraws 1
    ⟨fun t ht => absurd ht (List.not_mem_nil t), List.Pairwise.nil⟩

/-- C2 counterexample: the invite-code generation loop of `register`
(`app.py` lines 203-206) does not terminate for every store state: with a
store containing a team holding code `"AAAAAA"` and a collision streak in
the random stream, no number of iterations ever returns — there is no
retry cap and no error result. -/
theorem genUniqueCode_unbounded_counterexample :
    ¬ ∃ fuel, (genUniqueCode [collisionTeam] constDraws fuel 0).isSome = true := by
  rintro ⟨fuel, h⟩
  rw [genUniqueCode_collision_none fuel 0] at h
  exact Bool.false_ne_true h

/-- C2 amended: the loop is unbounded rejection sampling, not a
bounded-retry function — it never returns an error result; it terminates
exactly on those random streams where some attempt draws a code not yet
taken, and then returns a fresh valid code. -/
theorem genUniqueCode_succeeds_of_fresh_draw (teams : List Team)
    (draws : Nat → Fin 36) (a : Nat)
    (h : codeTaken teams (generate_invite_code draws a) = false) :
    ∃ c, genUniqueCode teams draws (a + 1) 0 = some c ∧
      codeTaken teams c = false ∧ validCodeB c = true := by
  have hs := genUniqueCode_isSome_of_fresh teams draws a 0 (by simpa using h)
  obtain ⟨c, hc⟩ := Option.isSome_iff_exists.mp hs
  exact ⟨c, hc, genUniqueCode_spec teams draws (a + 1) 0 c hc⟩

/-- C2 amended witness: on the empty store the first draw is already
fresh, so one iteration returns the fresh valid code `"AAAAAA"`. -/
theorem genUniqueCode_succeeds_of_fresh_draw_witness :
    ∃ c, genUniqueCode [] constDraws (0 + 1) 0 = some c ∧
      codeTaken [] c = false ∧ validCodeB c = true :=
  genUniqueCode_succeeds_of_fresh_draw [] constDraws 0 (by decide)

/-- C3: when the posted email already belongs to a stored user, `register`
creates nothing — the store is returned unchanged — and the request ends
in the duplicate-email flash with a redirect to the login view. -/
theorem register_duplicate_email (s : Store) (f : RegForm)
    (draws : Nat → Fin 36) (fuel : Nat)
    (h : s.users.any (fun u => u.email == f.email) = true) :
    register s f draws fuel = (s, RegOutcome.duplicateEmailRedirectLogin) := by
  unfold register
  rw [if_pos h]

/-- A one-user store for the duplicate-email witness. -/
def adaStore : Store :=
  { emptyStore with
    users := [{ id := 1, name := "Ada Lovelace", email := "ada@x.com"
                phone := "1234567890", college := "X College"
                password_hash := "pbkdf2-sha256$pw", team_id := none }]
    nextUserId := 2 }

/-- C3 witness: re-registering `ada@x.com` against `adaStore` leaves the
store unchanged and redirects to login. -/
theorem register_duplicate_email_witness :
    register adaStore adaForm constDraws 1 =
      (adaStore, RegOutcome.duplicateEmailRedirectLogin) :=
  register_duplicate_email adaStore adaForm constDraws 1 (by decide)

/-- C4: a "join" registration whose invite code matches no stored team
leaves the store unchanged (no `User` row is created) and ends in the
invalid-invite-code flash with a redirect back to the registration form. -/
theorem register_invalid_invite (s : Store) (f : RegForm)
    (draws : Nat → Fin 36) (fuel : Nat)
    (hmail : s.users.any (fun u => u.email == f.email) = false)
    (hchoice : f.teamChoice = "join")
    (hcode : s.teams.find? (fun t => t.invite_code == f.inviteCode) = none) :
    register s f draws fuel = (s, RegOutcome.invalidInviteRedirectRegister) := by
  unfold register
  rw [if_neg (by simp [hmail])]
  rw [if_neg (by simp [hchoice])]
  rw [if_pos (by simp [hchoice])]
  unfold registerJoin
  rw [hcode]

/-- A join-path form with an invite code no team holds. -/
def bobJoinForm : RegForm :=
  { name := "Bob", email := "bob@x.com", phone := "0987654321"
    college := "Y College", password := "pw2", teamChoice := "join"
    teamName := "", inviteCode := "ZZZZZZ" }

/-- C4 witness: joining with the unknown code `"ZZZZZZ"` against
`adaStore` changes nothing and redirects back to registration. -/
theorem register_invalid_invite_witness :
    register adaStore bobJoinForm constDraws 1 =
      (adaStore, RegOutcome.invalidInviteRedirectRegister) :=
  register_invalid_invite adaStore bobJoinForm constDraws 1
    (by decide) rfl (by decide)

/-! ### Helper lemmas about submissions and feedback -/

/-- If no stored submission belongs to `uid`, the lookup misses. -/
theorem find?_user_none (l : List Submission) (uid : Nat)
    (h : ∀ sub ∈ l, sub.user_id ≠ uid) :
    l.find? (fun sub => sub.user_id == uid) = none := by
  rw [List.find?_eq_none]
  intro x hx
  simp [h x hx]

/-- Appending the only matching row makes the lookup return it. -/
theorem find?_user_append (l : List Submission) (r : Submission) (uid : Nat)
    (h : ∀ sub ∈ l, sub.user_id ≠ uid) (hr : r.user_id = uid) :
    (l ++ [r]).find? (fun sub => sub.user_id == uid) = some r := by
  induction l with
  | nil =>
    rw [List.nil_append]
    exact List.find?_cons_of_pos _ (by simp [hr])
  | cons x xs ih =>
    rw [List.cons_append,
      List.find?_cons_of_neg _ (by simp [h x (List.mem_cons_self x xs)])]
    exact ih fun sub hs => h sub (List.mem_cons_of_mem x hs)

/-- `updateFirst` skips every non-matching prefix row and rewrites the
matching row's four fields. -/
theorem updateFirst_append (l : List Submission) (r : Submission) (uid : Nat)
    (t d g v : String) (h : ∀ sub ∈ l, sub.user_id ≠ uid) (hr : r.user_id = uid) :
    updateFirst uid t d g v (l ++ [r]) =
      l ++ [{ r with title := t, description := d, github := g, video := v }] := by
  induction l with
  | nil =>
    rw [List.nil_append]
    unfold updateFirst
    rw [if_pos (by simp [hr])]
    rfl
  | cons x xs ih =>
    rw [List.cons_append]
    unfold updateFirst
    rw [if_neg (by simp [h x (List.mem_cons_self x xs)])]
    rw [ih fun sub hs => h sub (List.mem_cons_of_mem x hs)]
    rfl

/-- Filtering for `uid` keeps only the single matching appended row. -/
theorem filter_user_append (l : List Submission) (r : Submission) (uid : Nat)
    (h : ∀ sub ∈ l, sub.user_id ≠ uid) (hr : r.user_id = uid) :
    (l ++ [r]).filter (fun sub => sub.user_id == uid) = [r] := by
  induction l with
  | nil => simp [List.filter, hr]
  | cons x xs ih =>
    rw [List.cons_append,
      List.filter_cons_of_neg (by simp [h x (List.mem_cons_self x xs)])]
    exact ih fun sub hs => h sub (List.mem_cons_of_mem x hs)

/-- Each authenticated feedback POST grows the table by exactly one row. -/
theorem addFeedbackN_length (uid : Nat) (items : List (String × String)) :
    ∀ s : Store, (addFeedbackN s uid items).feedbacks.length =
      s.feedbacks.length + items.length := by
  induction items with
  | nil => intro s; simp [addFeedbackN]
  | cons it rest ih =>
    intro s
    have hstep : addFeedbackN s uid (it :: rest) =
        addFeedbackN (addFeedback s (some uid) it.1 it.2).1 uid rest := rfl
    rw [hstep, ih]
    simp [addFeedback]
    omega

/-- C5: for a user with no stored submission, two consecutive submission
POSTs leave exactly one `Submission` row for that user — the first call
inserts, the second overwrites all four fields in place — and the row
carries the second call's field values. -/
theorem upsertSubmission_twice (s : Store) (uid : Nat)
    (t1 d1 g1 v1 t2 d2 g2 v2 : String)
    (h : ∀ sub ∈ s.submissions, sub.user_id ≠ uid) :
    (upsertSubmission (upsertSubmission s uid t1 d1 g1 v1) uid t2 d2 g2 v2).submissions =
      s.submissions ++ [{ id := s.nextSubmissionId, title := t2, description := d2
                          github := g2, video := v2, user_id := uid }] ∧
    (upsertSubmission (upsertSubmission s uid t1 d1 g1 v1) uid t2 d2 g2 v2).submissions.filter
        (fun sub => sub.user_id == uid) =
      [{ id := s.nextSubmissionId, title := t2, description := d2
         github := g2, video := v2, user_id := uid }] := by
  have h1 : upsertSubmission s uid t1 d1 g1 v1 =
      { s with
        submissions := s.submissions ++
          [{ id := s.nextSubmissionId, title := t1, description := d1
             github := g1, video := v1, user_id := uid }]
        nextSubmissionId := s.nextSubmissionId + 1 } := by
    unfold upsertSubmission
    rw [find?_user_none s.submissions uid h]
  rw [h1]
  have h2 := find?_user_append s.submissions
    ({ id := s.nextSubmissionId, title := t1, description := d1
       github := g1, video := v1, user_id := uid } : Submission) uid h rfl
  have h3 := updateFirst_append s.submissions
    ({ id := s.nextSubmissionId, title := t1, description := d1
       github := g1, video := v1, user_id := uid } : Submission) uid t2 d2 g2 v2 h rfl
  unfold upsertSubmission
  simp only [h2, h3]
  exact ⟨by trivial, filter_user_append s.submissions
    ({ id := s.nextSubmissionId, title := t2, description := d2
       github := g2, video := v2, user_id := uid } : Submission) uid h rfl⟩

/-- C5 witness: two submits by user 1 against the empty store leave the
single row with the second call's values. -/
theorem upsertSubmission_twice_witness :
    (upsertSubmission (upsertSubmission emptyStore 1 "t1" "d1" "g1" "v1")
        1 "t2" "d2" "g2" "v2").submissions =
      emptyStore.submissions ++
        [{ id := emptyStore.nextSubmissionId, title := "t2", description := "d2"
           github := "g2", video := "v2", user_id := 1 }] ∧
    (upsertSubmission (upsertSubmission emptyStore 1 "t1" "d1" "g1" "v1")
        1 "t2" "d2" "g2" "v2").submissions.filter (fun sub => sub.user_id == 1) =
      [{ id := emptyStore.nextSubmissionId, title := "t2", description := "d2"
         github := "g2", video := "v2", user_id := 1 }] :=
  upsertSubmission_twice emptyStore 1 "t1" "d1" "g1" "v1" "t2" "d2" "g2" "v2"
    (by decide)

/-- C6: a "create" registration with a blank team name stores a new team
named `"Team-"` followed by the first whitespace-separated token of the
registrant's name. -/
theorem register_create_blank_team_name (s : Store) (f : RegForm)
    (draws : Nat → Fin 36) (fuel : Nat) (tok : String) (rest : List String)
    (code : String)
    (hmail : s.users.any (fun u => u.email == f.email) = false)
    (hchoice : f.teamChoice = "create")
    (hblank : f.teamName = "")
    (hname : splitTokens f.name = tok :: rest)
    (hcode : genUniqueCode s.teams draws fuel 0 = some code) :
    (register s f draws fuel).1.teams =
      s.teams ++ [{ id := s.nextTeamId, team_name := "Team-" ++ tok
                    invite_code := code, created_by := none }] := by
  unfold register
  rw [if_neg (by simp [hmail]), if_pos (by simp [hchoice])]
  have hres : resolveTeamName f.name f.teamName = some ("Team-" ++ tok) := by
    unfold resolveTeamName
    rw [hname, if_pos (by simp [hblank])]
  unfold registerCreate
  simp only [hres, hcode]

/-- C6 witness: registering "Ada Lovelace" with a blank team name on the
empty store creates the team `"Team-Ada"`. -/
theorem register_create_blank_team_name_witness :
    (register emptyStore adaForm constDraws 1).1.teams =
      emptyStore.teams ++
        [{ id := emptyStore.nextTeamId, team_name := "Team-" ++ "Ada"
           invite_code := "AAAAAA", created_by := none }] :=
  register_create_blank_team_name emptyStore adaForm constDraws 1
    "Ada" ["Lovelace"] "AAAAAA" (by decide) rfl rfl (by decide) rfl

/-- C7: the feedback log is append-only — `N` authenticated POSTs add
exactly `N` rows, each single POST appends one new row (with the posted
text and rating) at the end without touching existing rows, an
unauthenticated POST changes nothing and redirects to login — and the
feedback listing shows only the calling user's rows, ordered by
descending id (newest first). -/
theorem feedback_append_only_and_listing (s : Store) (uid : Nat)
    (items : List (String × String)) (text rating : String) :
    (addFeedbackN s uid items).feedbacks.length =
      s.feedbacks.length + items.length ∧
    (addFeedback s (some uid) text rating).1.feedbacks =
      s.feedbacks ++ [{ id := s.nextFeedbackId, text := text
                        rating := rating, user_id := uid }] ∧
    addFeedback s none text rating = (s, FeedbackOutcome.authRequiredRedirectLogin) ∧
    (∀ fb ∈ listFeedback s uid, fb.user_id = uid) ∧
    List.Sorted fbNewer (listFeedback s uid) ∧
    (listFeedback s uid).Perm (s.feedbacks.filter fun fb => fb.user_id == uid) := by
  refine ⟨addFeedbackN_length uid items s, rfl, rfl, ?_, ?_, ?_⟩
  · intro fb hfb
    have hmem : fb ∈ s.feedbacks.filter (fun fb => fb.user_id == uid) :=
      (List.perm_insertionSort fbNewer _).mem_iff.mp hfb
    have := (List.mem_filter.mp hmem).2
    simpa using this
  · exact List.sorted_insertionSort fbNewer _
  · exact List.perm_insertionSort fbNewer _

/-- C8: sponsor seeding is idempotent — seeding twice equals seeding
once; on an empty sponsor table one seeding inserts exactly the three
default sponsors; on any non-empty table seeding inserts nothing. -/
theorem seed_sponsors_idempotent (s : Store) (x : Sponsor) (l : List Sponsor) :
    seed_sponsors (seed_sponsors s) = seed_sponsors s ∧
    (seed_sponsors { s with sponsors := [] }).sponsors =
      defaultSponsors s.nextSponsorId ∧
    (seed_sponsors { s with sponsors := [] }).sponsors.length = 3 ∧
    seed_sponsors { s with sponsors := x :: l } = { s with sponsors := x :: l } := by
  refine ⟨?_, ?_, ?_, ?_⟩
  · cases hs : s.sponsors with
    | nil => simp [seed_sponsors, hs, defaultSponsors]
    | cons y ys => simp [seed_sponsors, hs]
  · simp [seed_sponsors, defaultSponsors]
  · simp [seed_sponsors, defaultSponsors]
  · simp [seed_sponsors]

/-- C9: an admin login attempt with a credential pair different from the
configured one leaves the session unchanged (so an unset admin flag stays
unset) and a subsequent `/admin/dashboard` request redirects to
`/admin/login` instead of rendering. -/
theorem admin_login_wrong_creds (sess : Session) (email password : String)
    (h : ¬(email = ADMIN_EMAIL ∧ password = ADMIN_PASSWORD))
    (h2 : sess.is_admin = false) :
    admin_login sess email password = (sess, AdminLoginOutcome.invalidCreds) ∧
    (admin_login sess email password).1.is_admin = false ∧
    admin_dashboard (admin_login sess email password).1 =
      AdminDashboardOutcome.redirectAdminLogin := by
  have hcond : (email == ADMIN_EMAIL && password == ADMIN_PASSWORD) = false := by
    by_contra hc
    rw [Bool.not_eq_false, Bool.and_eq_true] at hc
    exact h ⟨by simpa using hc.1, by simpa using hc.2⟩
  have hlog : admin_login sess email password = (sess, AdminLoginOutcome.invalidCreds) := by
    unfold admin_login
    rw [if_neg (by simp [hcond])]
  refine ⟨hlog, ?_, ?_⟩
  · rw [hlog]
    exact h2
  · rw [hlog]
    simp [admin_dashboard, require_admin, h2]

/-- A participant session without the admin flag. -/
def participantSession : Session := { user_id := some 1, is_admin := false }

/-- C9 witness: a wrong admin password against a participant session
leaves the flag unset and the dashboard redirecting. -/
theorem admin_login_wrong_creds_witness :
    admin_login participantSession "admin@hackathon.com" "wrongpw" =
      (participantSession, AdminLoginOutcome.invalidCreds) ∧
    (admin_login participantSession "admin@hackathon.com" "wrongpw").1.is_admin = false ∧
    admin_dashboard (admin_login participantSession "admin@hackathon.com" "wrongpw").1 =
      AdminDashboardOutcome.redirectAdminLogin :=
  admin_login_wrong_creds participantSession "admin@hackathon.com" "wrongpw"
    (by decide) rfl

/-- C10: admin logout only clears the admin flag — the participant's
`user_id` entry, and hence the resolved current user, are untouched —
while the participant logout clears the whole session, admin flag
included. -/
theorem admin_logout_frame (sess : Session) (s : Store) :
    (admin_logout sess).is_admin = false ∧
    (admin_logout sess).user_id = sess.user_id ∧
    get_current_user s (admin_logout sess) = get_current_user s sess ∧
    logout sess = { user_id := none, is_admin := false } :=
  ⟨rfl, rfl, rfl, rfl⟩

end Hackathon
